import Mathlib

/-!
Verification development for the MarkdownPDF repository (`src/lib/main.ts`).

The TypeScript source is shallowly embedded below:

* `Options` and `parseOptions` embed the `Options` class constructor
  (argument parsing, path resolution, default output derivation);
* `pathResolve`, `basename` model the Node.js `path` module (POSIX flavour),
  an external collaborator of the repository;
* `replaceFirst` models JavaScript `String.prototype.replace` with a string
  pattern (which replaces only the first occurrence);
* `composeWeb`, `headerTemplate`, `footerTemplate` embed the HTML template and
  the PDF header/footer templates built in `renderMarkdown`;
* `renderTrace` embeds the sequence of awaited effects of `renderMarkdown` as
  an event trace driven by an oracle of step outcomes;
* `runMain` embeds `main` (try / catch / finally with `process.exit(0)`).
-/

deriving instance DecidableEq for Except

/-- Check that list `p` is an initial segment of list `s`
(character-level helper for the string functions below). -/
def startsL : List Char → List Char → Bool
  | [], _ => true
  | _ :: _, [] => false
  | p :: ps, s :: ss => p = s && startsL ps ss

/-- Check that list `s` ends with list `suf`. -/
def endsL (s suf : List Char) : Bool := startsL suf.reverse s.reverse

/-- Models JavaScript `s.endsWith(suf)`. -/
def endsWithS (s suf : String) : Bool := endsL s.toList suf.toList

/-- Replace the first occurrence of `pat` in a character list by `rep`.
If `pat` does not occur the list is unchanged. -/
def replFirstL (pat rep : List Char) : List Char → List Char
  | [] => []
  | c :: cs =>
    if startsL pat (c :: cs) then rep ++ (c :: cs).drop pat.length
    else c :: replFirstL pat rep cs

/-- Models JavaScript `s.replace(pat, rep)` with a string pattern:
only the FIRST occurrence of `pat` is replaced. -/
def replaceFirst (s pat rep : String) : String :=
  String.mk (replFirstL pat.toList rep.toList s.toList)

/-- Split a character list on a separator character; models JavaScript
`String.prototype.split` with a single-character separator
(`"".split` gives `[""]`, separators at the ends give empty pieces). -/
def splitOnChar (sep : Char) : List Char → List (List Char)
  | [] => [[]]
  | c :: cs =>
    if c = sep then [] :: splitOnChar sep cs
    else
      match splitOnChar sep cs with
      | [] => [[c]]
      | p :: ps => (c :: p) :: ps

/-- Normalize POSIX path components: drop empty and `.` components and make
`..` pop the previous component (popping past the root is a no-op). -/
def normComps (acc : List (List Char)) : List (List Char) → List (List Char)
  | [] => acc
  | c :: rest =>
    if c = [] ∨ c = ['.'] then normComps acc rest
    else if c = ['.', '.'] then normComps acc.dropLast rest
    else normComps (acc ++ [c]) rest

/-- Modelled from the Node.js `path.resolve(cwd, p)` capability (POSIX
flavour), an external collaborator of the repository: if `p` is absolute it is
normalized on its own, otherwise it is joined onto `cwd` and normalized. -/
def pathResolve (cwd p : String) : String :=
  let full := if startsL ['/'] p.toList then p.toList else cwd.toList ++ '/' :: p.toList
  String.mk ('/' :: List.intercalate ['/'] (normComps [] (splitOnChar '/' full)))

/-- Last path component, trailing slashes ignored; modelled from the Node.js
`path.basename` capability (POSIX flavour). -/
def basename (p : String) : String :=
  String.mk (((p.toList.reverse.dropWhile (fun c => c = '/')).takeWhile
    (fun c => decide (c ≠ '/'))).reverse)

/-- Embeds the `Options` class of `src/lib/main.ts`: the resolved
configuration of one invocation. -/
structure Options where
  src : String
  out : String
  outputHTML : Bool
  showTitle : Bool
  browser : String
deriving DecidableEq, Repr

/-- The field defaults set at the top of the `Options` constructor
(`src/lib/main.ts` lines 26-30). -/
def defaultOptions : Options :=
  { src := ""
    out := ""
    outputHTML := false
    showTitle := false
    browser := "C:\\Program Files (x86)\\Microsoft\\Edge\\Application\\msedge.exe" }

/-- Embeds `arg.split('=')` (JavaScript split on `=`). -/
def argParts (arg : String) : List String :=
  (splitOnChar '=' arg.toList).map String.mk

/-- Embeds `arg.split('=')[0]`, the key the switch statement matches on. -/
def argKey (arg : String) : String := (argParts arg).headD ""

/-- Embeds `arg.split('=')[1]`, the value part (junk default when absent). -/
def argVal (arg : String) : String := (argParts arg).getD 1 ""

/-- Embeds the `--src` branch of the constructor (line 37): append `.md`
unless the value already ends with it, then resolve against `cwd`. -/
def srcResolved (cwd v : String) : String :=
  if endsWithS v ".md" then pathResolve cwd v else pathResolve cwd (v ++ ".md")

/-- Embeds the `--out` branch of the constructor (line 43): append `.pdf`
unless the value already ends with it, then resolve against `cwd`. -/
def outResolved (cwd v : String) : String :=
  if endsWithS v ".pdf" then pathResolve cwd v else pathResolve cwd (v ++ ".pdf")

/-- Embeds one iteration of the `args.forEach` switch in the `Options`
constructor (`src/lib/main.ts` lines 32-63); `.error ()` embeds
`throw SyntaxError()`. -/
def applyArg (cwd : String) (o : Options) (arg : String) : Except Unit Options :=
  if argKey arg = "--src" then
    if (argParts arg).length ≠ 2 ∨ argVal arg = "" then .error ()
    else .ok { o with src := srcResolved cwd (argVal arg) }
  else if argKey arg = "--out" then
    if (argParts arg).length ≠ 2 ∨ argVal arg = "" then .error ()
    else .ok { o with out := outResolved cwd (argVal arg) }
  else if argKey arg = "--outputHTML" then .ok { o with outputHTML := true }
  else if argKey arg = "--showTitle" then .ok { o with showTitle := true }
  else if argKey arg = "--browser" then
    if (argParts arg).length ≠ 2 ∨ argVal arg = "" then .error ()
    else .ok { o with browser := argVal arg }
  else .error ()

/-- Embeds the `args.forEach(...)` loop: a thrown `SyntaxError` aborts the
remaining iterations and propagates. -/
def parseLoop (cwd : String) (o : Options) : List String → Except Unit Options
  | [] => .ok o
  | a :: as =>
    match applyArg cwd o a with
    | .error e => .error e
    | .ok o2 => parseLoop cwd o2 as

/-- Embeds the whole `Options` constructor (`src/lib/main.ts` lines 24-68):
run the forEach loop from the defaults, then the post-parse checks
(line 66: `src` must be set; line 67: default `out` by
`this.src.replace('.md', '.pdf')`, i.e. first occurrence). -/
def parseOptions (args : List String) (cwd : String) : Except Unit Options :=
  match parseLoop cwd defaultOptions args with
  | .error e => .error e
  | .ok o =>
    if o.src = "" then .error ()
    else .ok (if o.out = "" then { o with out := replaceFirst o.src ".md" ".pdf" } else o)

/-- Whether parameter resolution succeeds (no `SyntaxError` thrown). -/
def parseOk (args : List String) (cwd : String) : Bool :=
  match parseOptions args cwd with
  | .ok _ => true
  | .error _ => false

/-- The title derivation of `renderMarkdown` (line 108):
`path.basename(options.src).replace('.md', '')` — first occurrence removed. -/
def deriveTitle (src : String) : String := replaceFirst (basename src) ".md" ""

/-- The fixed pieces of the HTML template of `renderMarkdown`
(lines 109-121), split around the three interpolation points. -/
def webHead : String :=
  "\n    <!DOCTYPE html>\n    <html lang=\"zh-CN\">\n    <head>\n      <meta charset=\"UTF-8\">\n      "

/-- Template piece between the title element and the style element. -/
def webMid1 : String := "\n      <style>"

/-- Template piece between the stylesheet and the body fragment. -/
def webMid2 : String := "</style>\n    </head>\n    <body>\n      "

/-- Template piece after the body fragment. -/
def webTail : String := "\n    </body>\n    </html>\n  "

/-- Embeds the Page Composer of `renderMarkdown` (lines 108-121): the composed
HTML document from the configuration, the rendered fragment `html`, and the
stylesheet text `css`. -/
def composeWeb (o : Options) (html css : String) : String :=
  webHead ++ "<title>" ++ deriveTitle o.src ++ "</title>" ++ webMid1 ++ css
    ++ webMid2 ++ html ++ webTail

/-- Embeds the `headerTemplate` ternary of the `page.pdf` call (line 141). -/
def headerTemplate (o : Options) : String :=
  if o.showTitle then
    "<div style=\"font-size: 9px; font-family: \x27宋体\x27; color: #333; padding: 5px; margin-left: 0.6cm;\"> <span class=\"title\"></span> </div>"
  else "<div></div>"

/-- Embeds the fixed `footerTemplate` of the `page.pdf` call (line 142). -/
def footerTemplate : String :=
  "<div style=\"font-size: 9px; font-family: \x27宋体\x27; color: #333; padding: 5px; margin: 0 auto;\">第 <span class=\"pageNumber\"></span> 页 / 共 <span class=\"totalPages\"></span> 页</div>"

/-- Whether `pat` occurs as a contiguous sublist of `s` (substring test at
character level). -/
def hasSub (pat : List Char) : List Char → Bool
  | [] => startsL pat []
  | c :: cs => startsL pat (c :: cs) || hasSub pat cs

/-- The awaited effects of `renderMarkdown` (lines 100-146), in program
order. `writeHtml` carries the path passed to `fs.writeFile`. -/
inductive Ev where
  | readSrc
  | renderMd
  | readCss
  | writeHtml (p : String)
  | launch
  | newPage
  | setContent
  | pdf
  | close
deriving DecidableEq, Repr

/-- An oracle deciding which awaited step of `renderMarkdown` succeeds; a
`false` field embeds that step throwing. -/
structure IOOracle where
  readSrcOk : Bool
  markedOk : Bool
  readCssOk : Bool
  writeHtmlOk : Bool
  launchOk : Bool
  newPageOk : Bool
  setContentOk : Bool
  pdfOk : Bool
  closeOk : Bool
deriving DecidableEq, Repr

/-- The events up to and including the optional HTML write (line 123):
`fs.writeFile` is attempted only when `options.outputHTML` is set, at the path
`options.src.replace('.md', '.html')`. -/
def traceAttempt (o : Options) : List Ev :=
  [Ev.readSrc, Ev.renderMd, Ev.readCss]
    ++ (if o.outputHTML then [Ev.writeHtml (replaceFirst o.src ".md" ".html")] else [])

/-- Embeds `renderMarkdown` as an event trace plus a success flag: each await
is attempted in program order and the first failing step aborts the rest (the
exception propagates; there is no `try`/`finally` inside `renderMarkdown`). -/
def renderTrace (o : Options) (io : IOOracle) : List Ev × Bool :=
  if !io.readSrcOk then ([Ev.readSrc], false)
  else if !io.markedOk then ([Ev.readSrc, Ev.renderMd], false)
  else if !io.readCssOk then ([Ev.readSrc, Ev.renderMd, Ev.readCss], false)
  else if o.outputHTML && !io.writeHtmlOk then (traceAttempt o, false)
  else if !io.launchOk then (traceAttempt o ++ [Ev.launch], false)
  else if !io.newPageOk then (traceAttempt o ++ [Ev.launch, Ev.newPage], false)
  else if !io.setContentOk then
    (traceAttempt o ++ [Ev.launch, Ev.newPage, Ev.setContent], false)
  else if !io.pdfOk then
    (traceAttempt o ++ [Ev.launch, Ev.newPage, Ev.setContent, Ev.pdf], false)
  else if !io.closeOk then
    (traceAttempt o ++ [Ev.launch, Ev.newPage, Ev.setContent, Ev.pdf, Ev.close], false)
  else (traceAttempt o ++ [Ev.launch, Ev.newPage, Ev.setContent, Ev.pdf, Ev.close], true)

/-- Whether an event is part of PDF emission (browser launch, page creation,
content load, pagination). -/
def isEmission : Ev → Bool
  | Ev.launch | Ev.newPage | Ev.setContent | Ev.pdf => true
  | _ => false

/-- Whether an event is the intermediate HTML write. -/
def isWriteHtml : Ev → Bool
  | Ev.writeHtml _ => true
  | _ => false

/-- From the first PDF-emission event on, no HTML write occurs: the HTML file
is saved strictly before PDF emission begins. -/
def htmlBeforeEmission (tr : List Ev) : Bool :=
  (tr.dropWhile (fun e => !isEmission e)).all (fun e => !isWriteHtml e)

/-- The user-facing console outputs of `main` (lines 76-94). -/
inductive MainMsg where
  | started
  | success
  | paramError
  | unknownError
deriving DecidableEq, Repr

/-- Observable outcome of one `main` invocation: console messages, the
rendering events that ran, and the process exit status. -/
structure MainResult where
  msgs : List MainMsg
  trace : List Ev
  exitCode : Nat
deriving DecidableEq, Repr

/-- Embeds `main` (lines 76-94): parse, then render; a `SyntaxError` from the
constructor prints the parameter-error message, any other error prints the
unknown-error message, and the `finally` block runs `process.exit(0)` on every
path. -/
def runMain (args : List String) (cwd : String) (io : IOOracle) : MainResult :=
  match parseOptions args cwd with
  | .error _ => { msgs := [MainMsg.paramError], trace := [], exitCode := 0 }
  | .ok o =>
    if (renderTrace o io).2 then
      { msgs := [MainMsg.started, MainMsg.success], trace := (renderTrace o io).1, exitCode := 0 }
    else
      { msgs := [MainMsg.started, MainMsg.unknownError], trace := (renderTrace o io).1,
        exitCode := 0 }

/-- A sample configuration with the emit-HTML flag set, used in concrete
instantiations. -/
def oHtmlSample : Options :=
  { defaultOptions with src := "/d/paper.md", out := "/d/paper.pdf", outputHTML := true }

/-- A sample oracle where only the HTML write fails. -/
def ioWriteFailSample : IOOracle := ⟨true, true, true, false, true, true, true, true, true⟩

/-- An argument the constructor's switch accepts without throwing: a flag key
(value, if attached, is ignored), or a value key with exactly one non-empty
value part. -/
def wellFormedArg (arg : String) : Bool :=
  if argKey arg = "--src" ∨ argKey arg = "--out" ∨ argKey arg = "--browser" then
    if (argParts arg).length ≠ 2 ∨ argVal arg = "" then false else true
  else if argKey arg = "--outputHTML" ∨ argKey arg = "--showTitle" then true
  else false

/-- The configuration update one well-formed argument performs. -/
def stepOpts (cwd : String) (o : Options) (arg : String) : Options :=
  if argKey arg = "--src" then { o with src := srcResolved cwd (argVal arg) }
  else if argKey arg = "--out" then { o with out := outResolved cwd (argVal arg) }
  else if argKey arg = "--outputHTML" then { o with outputHTML := true }
  else if argKey arg = "--showTitle" then { o with showTitle := true }
  else if argKey arg = "--browser" then { o with browser := argVal arg }
  else o

/-- Value part of the last argument in the list whose key is `key`
(later occurrences overwrite earlier ones in the forEach loop). -/
def lastValue (key : String) : List String → Option String
  | [] => none
  | a :: as =>
    match lastValue key as with
    | some v => some v
    | none => if argKey a = key then some (argVal a) else none

/-- The configuration state after the forEach loop runs over well-formed
arguments starting from `init`: each value key holds its last occurrence,
each flag is set when its key occurs at all. -/
def resultOpts (cwd : String) (args : List String) (init : Options) : Options :=
  { src :=
      match lastValue "--src" args with
      | some v => srcResolved cwd v
      | none => init.src
    out :=
      match lastValue "--out" args with
      | some v => outResolved cwd v
      | none => init.out
    outputHTML := init.outputHTML || args.any (fun a => decide (argKey a = "--outputHTML"))
    showTitle := init.showTitle || args.any (fun a => decide (argKey a = "--showTitle"))
    browser :=
      match lastValue "--browser" args with
      | some v => v
      | none => init.browser }

/-- The configuration a successful resolution produces: the loop result from
the defaults, with the output path defaulted when `--out` never occurred. -/
def finalOptions (cwd : String) (args : List String) : Options :=
  if (resultOpts cwd args defaultOptions).out = "" then
    { resultOpts cwd args defaultOptions with
      out := replaceFirst (resultOpts cwd args defaultOptions).src ".md" ".pdf" }
  else resultOpts cwd args defaultOptions

/-- Whether some argument carries the `--src` key. -/
def hasSrcArg (args : List String) : Bool :=
  args.any (fun a => decide (argKey a = "--src"))

/-- A malformed argument list: some argument the switch rejects, or no
(well-formed) `--src` argument at all. -/
def malformed (args : List String) : Bool :=
  args.any (fun a => !wellFormedArg a) || !hasSrcArg args

example : parseOptions ["--src=paper"] "/docs" =
    .ok { defaultOptions with src := "/docs/paper.md", out := "/docs/paper.pdf" } := by decide

example : parseOptions ["--src=paper.md", "--out=out/final", "--outputHTML"] "/docs" =
    .ok { defaultOptions with
          src := "/docs/paper.md", out := "/docs/out/final.pdf", outputHTML := true } := by
  decide

example : parseOptions ["--src=x", "--unknown"] "/docs" = .error () := by decide

example : parseOptions [] "/docs" = .error () := by decide

theorem applyArg_wf (cwd : String) (o : Options) (a : String)
    (h : wellFormedArg a = true) : applyArg cwd o a = .ok (stepOpts cwd o a) := by
  unfold wellFormedArg at h
  unfold applyArg stepOpts
  split_ifs at h ⊢ <;> simp_all

theorem applyArg_bad (cwd : String) (o : Options) (a : String)
    (h : wellFormedArg a = false) : applyArg cwd o a = .error () := by
  unfold wellFormedArg at h
  unfold applyArg
  split_ifs at h ⊢ <;> simp_all

theorem lastValue_cons (key a : String) (as : List String) :
    lastValue key (a :: as) =
      match lastValue key as with
      | some v => some v
      | none => if argKey a = key then some (argVal a) else none := rfl

theorem stepOpts_src (cwd : String) (init : Options) (a : String) :
    (stepOpts cwd init a).src =
      if argKey a = "--src" then srcResolved cwd (argVal a) else init.src := by
  unfold stepOpts
  split_ifs <;> rfl

theorem stepOpts_out (cwd : String) (init : Options) (a : String) :
    (stepOpts cwd init a).out =
      if argKey a = "--out" then outResolved cwd (argVal a) else init.out := by
  unfold stepOpts
  split_ifs <;> first | rfl | simp_all

theorem stepOpts_outputHTML (cwd : String) (init : Options) (a : String) :
    (stepOpts cwd init a).outputHTML =
      if argKey a = "--outputHTML" then true else init.outputHTML := by
  unfold stepOpts
  split_ifs <;> first | rfl | simp_all

theorem stepOpts_showTitle (cwd : String) (init : Options) (a : String) :
    (stepOpts cwd init a).showTitle =
      if argKey a = "--showTitle" then true else init.showTitle := by
  unfold stepOpts
  split_ifs <;> first | rfl | simp_all

theorem stepOpts_browser (cwd : String) (init : Options) (a : String) :
    (stepOpts cwd init a).browser =
      if argKey a = "--browser" then argVal a else init.browser := by
  unfold stepOpts
  split_ifs <;> first | rfl | simp_all

theorem resultOpts_cons (cwd : String) (a : String) (as : List String) (init : Options) :
    resultOpts cwd (a :: as) init = resultOpts cwd as (stepOpts cwd init a) := by
  unfold resultOpts
  simp only [Options.mk.injEq, lastValue_cons, List.any_cons]
  refine ⟨?_, ?_, ?_, ?_, ?_⟩
  · cases h1 : lastValue "--src" as <;>
      by_cases h : argKey a = "--src" <;>
        simp [h, stepOpts_src]
  · cases h1 : lastValue "--out" as <;>
      by_cases h : argKey a = "--out" <;>
        simp [h, stepOpts_out]
  · by_cases h : argKey a = "--outputHTML" <;> simp [h, stepOpts_outputHTML]
  · by_cases h : argKey a = "--showTitle" <;> simp [h, stepOpts_showTitle]
  · cases h1 : lastValue "--browser" as <;>
      by_cases h : argKey a = "--browser" <;>
        simp [h, stepOpts_browser]

theorem parseLoop_wf (cwd : String) : ∀ (args : List String) (init : Options),
    (∀ a ∈ args, wellFormedArg a = true) →
    parseLoop cwd init args = .ok (resultOpts cwd args init)
  | [], init, _ => by
      simp [parseLoop, resultOpts, lastValue]
  | a :: as, init, h => by
      have hw := applyArg_wf cwd init a (h a (by simp))
      simp only [parseLoop, hw]
      rw [parseLoop_wf cwd as (stepOpts cwd init a) (fun x hx => h x (by simp [hx])),
        resultOpts_cons]

theorem parseLoop_bad (cwd : String) : ∀ (args : List String) (init : Options),
    (¬ ∀ a ∈ args, wellFormedArg a = true) →
    parseLoop cwd init args = .error ()
  | [], _, h => absurd (by simp) h
  | a :: as, init, h => by
      by_cases hw : wellFormedArg a = true
      · simp only [parseLoop, applyArg_wf cwd init a hw]
        refine parseLoop_bad cwd as (stepOpts cwd init a) (fun hall => h ?_)
        intro x hx
        rcases List.mem_cons.mp hx with rfl | hx2
        · exact hw
        · exact hall x hx2
      · have hb : wellFormedArg a = false := by simpa using hw
        simp only [parseLoop, applyArg_bad cwd init a hb]

theorem pathResolve_ne_empty (cwd p : String) : pathResolve cwd p ≠ "" := by
  intro hcon
  have h2 := congrArg String.data hcon
  simp [pathResolve] at h2

theorem srcResolved_ne_empty (cwd v : String) : srcResolved cwd v ≠ "" := by
  unfold srcResolved
  split_ifs <;> exact pathResolve_ne_empty cwd _

theorem outResolved_ne_empty (cwd v : String) : outResolved cwd v ≠ "" := by
  unfold outResolved
  split_ifs <;> exact pathResolve_ne_empty cwd _

theorem lastValue_none (key : String) : ∀ (args : List String),
    args.any (fun a => decide (argKey a = key)) = false → lastValue key args = none
  | [], _ => rfl
  | a :: as, h => by
      simp only [List.any_cons, Bool.or_eq_false_iff] at h
      have h2 := lastValue_none key as h.2
      have h3 : ¬ (argKey a = key) := by simpa using h.1
      simp only [lastValue_cons, h2]
      simp [h3]

theorem lastValue_isSome (key : String) : ∀ (args : List String),
    args.any (fun a => decide (argKey a = key)) = true → ∃ v, lastValue key args = some v
  | [], h => by simp at h
  | a :: as, h => by
      cases h2 : lastValue key as with
      | some v => exact ⟨v, by simp only [lastValue_cons, h2]⟩
      | none =>
          simp only [List.any_cons, Bool.or_eq_true] at h
          rcases h with h1 | h1
          · have h3 : argKey a = key := by simpa using h1
            exact ⟨argVal a, by simp only [lastValue_cons, h2]; simp [h3]⟩
          · rcases lastValue_isSome key as h1 with ⟨v, hv⟩
            rw [hv] at h2
            cases h2

theorem parse_wf (args : List String) (cwd : String)
    (h1 : ∀ a ∈ args, wellFormedArg a = true) (h2 : hasSrcArg args = true) :
    parseOptions args cwd = .ok (finalOptions cwd args) := by
  have hfold := parseLoop_wf cwd args defaultOptions h1
  have hsrc : (resultOpts cwd args defaultOptions).src ≠ "" := by
    rcases lastValue_isSome "--src" args (by simpa [hasSrcArg] using h2) with ⟨v, hv⟩
    unfold resultOpts
    simp only [hv]
    exact srcResolved_ne_empty cwd v
  unfold parseOptions finalOptions
  rw [hfold]
  simp [hsrc]

theorem parse_malformed (args : List String) (cwd : String)
    (h : malformed args = true) : parseOptions args cwd = .error () := by
  by_cases hall : ∀ a ∈ args, wellFormedArg a = true
  · have h1 : hasSrcArg args = false := by
      unfold malformed at h
      simp only [Bool.or_eq_true] at h
      rcases h with h1 | h1
      · exfalso
        simp only [List.any_eq_true] at h1
        rcases h1 with ⟨a, ha, hwbad⟩
        rw [hall a ha] at hwbad
        simp at hwbad
      · simpa using h1
    have hnone := lastValue_none "--src" args (by simpa [hasSrcArg] using h1)
    unfold parseOptions
    rw [parseLoop_wf cwd args defaultOptions hall]
    have hempty : (resultOpts cwd args defaultOptions).src = "" := by
      unfold resultOpts
      simp only [hnone]
      rfl
    simp [hempty]
  · unfold parseOptions
    rw [parseLoop_bad cwd args defaultOptions hall]

theorem parse_ok_inv (args : List String) (cwd : String) (o : Options)
    (h : parseOptions args cwd = .ok o) :
    (∀ a ∈ args, wellFormedArg a = true) ∧ hasSrcArg args = true ∧ o = finalOptions cwd args := by
  have hm : malformed args = false := by
    by_contra hcon
    have hm2 : malformed args = true := by simpa using hcon
    rw [parse_malformed args cwd hm2] at h
    cases h
  unfold malformed at hm
  have hparts := Bool.or_eq_false_iff.mp hm
  have hall : ∀ a ∈ args, wellFormedArg a = true := by
    have hx := hparts.1
    simp only [List.any_eq_false] at hx
    intro a ha
    simpa using hx a ha
  have hsrc : hasSrcArg args = true := by simpa using hparts.2
  refine ⟨hall, hsrc, ?_⟩
  rw [parse_wf args cwd hall hsrc] at h
  injection h with h2
  exact h2.symm

theorem finalOptions_src (cwd : String) (args : List String) :
    (finalOptions cwd args).src = (resultOpts cwd args defaultOptions).src := by
  unfold finalOptions
  split_ifs <;> rfl

/-- C5: parameter resolution fails exactly on malformed argument lists
(an argument the switch rejects, or no well-formed `--src`), and on a
malformed list `main` prints only the parameter-error message and no
rendering step runs. -/
theorem resolution_fails_iff_malformed (args : List String) (cwd : String) :
    parseOk args cwd = !malformed args ∧
      (∀ io : IOOracle, malformed args = true →
        (runMain args cwd io).msgs = [MainMsg.paramError] ∧ (runMain args cwd io).trace = []) := by
  constructor
  · cases hm : malformed args
    · have hm2 : malformed args = false := hm
      unfold malformed at hm2
      have hparts := Bool.or_eq_false_iff.mp hm2
      have hall : ∀ a ∈ args, wellFormedArg a = true := by
        have hx := hparts.1
        simp only [List.any_eq_false] at hx
        intro a ha
        simpa using hx a ha
      have hsrc : hasSrcArg args = true := by simpa using hparts.2
      simp [parseOk, parse_wf args cwd hall hsrc]
    · simp [parseOk, parse_malformed args cwd hm]
  · intro io hm
    simp [runMain, parse_malformed args cwd hm]

/-- Witness for C5 at concrete inputs: an unrecognized key is a parameter
error with no rendering events, and the equivalence holds there. -/
theorem resolution_fails_iff_malformed_witness :
    parseOk ["--foo=bar"] "/docs" = !malformed ["--foo=bar"] ∧
      (runMain ["--foo=bar"] "/docs" ⟨true, true, true, true, true, true, true, true, true⟩).trace
        = [] :=
  ⟨(resolution_fails_iff_malformed ["--foo=bar"] "/docs").1,
    ((resolution_fails_iff_malformed ["--foo=bar"] "/docs").2
      ⟨true, true, true, true, true, true, true, true, true⟩ (by decide)).2⟩

/-- C10: on a well-formed argument list (every argument accepted by the
switch keys and some `--src` present) resolution never raises a
duplicate-key error; it succeeds, and each of `--src`, `--out`, `--browser`
holds the value of its last occurrence. -/
theorem duplicate_keys_last_wins (args : List String) (cwd : String)
    (h1 : ∀ a ∈ args, wellFormedArg a = true) (h2 : hasSrcArg args = true) :
    parseOptions args cwd = .ok (finalOptions cwd args) ∧
      (∀ v, lastValue "--src" args = some v →
        (finalOptions cwd args).src = srcResolved cwd v) ∧
      (∀ v, lastValue "--out" args = some v →
        (finalOptions cwd args).out = outResolved cwd v) ∧
      (∀ v, lastValue "--browser" args = some v →
        (finalOptions cwd args).browser = v) := by
  refine ⟨parse_wf args cwd h1 h2, ?_, ?_, ?_⟩
  · intro v hv
    rw [finalOptions_src]
    unfold resultOpts
    simp [hv]
  · intro v hv
    have hout : (resultOpts cwd args defaultOptions).out = outResolved cwd v := by
      unfold resultOpts
      simp [hv]
    unfold finalOptions
    split_ifs with hc
    · exact absurd (hout ▸ hc) (outResolved_ne_empty cwd v)
    · exact hout
  · intro v hv
    unfold finalOptions
    split_ifs
    · unfold resultOpts
      simp [hv]
    · unfold resultOpts
      simp [hv]

/-- Witness for C10: duplicated `--src` and `--browser` keys resolve without
error and the last occurrences win. -/
theorem duplicate_keys_last_wins_witness :
    parseOptions ["--src=a", "--src=b", "--browser=x", "--browser=y"] "/d" =
      .ok (finalOptions "/d" ["--src=a", "--src=b", "--browser=x", "--browser=y"]) ∧
    finalOptions "/d" ["--src=a", "--src=b", "--browser=x", "--browser=y"] =
      { defaultOptions with src := "/d/b.md", out := "/d/b.pdf", browser := "y" } :=
  ⟨(duplicate_keys_last_wins ["--src=a", "--src=b", "--browser=x", "--browser=y"] "/d"
      (by decide) (by decide)).1, by decide⟩

/-- C6: whenever resolution succeeds, the source path comes from the
(last) `--src` value: resolved as-is against the working directory when it
already ends in `.md`, and with `.md` appended otherwise; and the same rule
with `.pdf` governs `--out` when it was supplied. -/
theorem path_extension_resolution (args : List String) (cwd : String) (o : Options)
    (h : parseOptions args cwd = .ok o) :
    (∀ v, lastValue "--src" args = some v →
      o.src = if endsWithS v ".md" then pathResolve cwd v else pathResolve cwd (v ++ ".md")) ∧
    (∀ v, lastValue "--out" args = some v →
      o.out = if endsWithS v ".pdf" then pathResolve cwd v else pathResolve cwd (v ++ ".pdf")) := by
  rcases parse_ok_inv args cwd o h with ⟨hall, hsrc, rfl⟩
  rcases duplicate_keys_last_wins args cwd hall hsrc with ⟨-, hs, ho, -⟩
  exact ⟨fun v hv => hs v hv, fun v hv => ho v hv⟩

/-- Witness for C6: `--src=paper` gains the `.md` extension and
`--out=final` gains the `.pdf` extension, both resolved under `/d`. -/
theorem path_extension_resolution_witness :
    ({ defaultOptions with src := "/d/paper.md", out := "/d/final.pdf" } : Options).src =
        (if endsWithS "paper" ".md" then pathResolve "/d" "paper"
         else pathResolve "/d" ("paper" ++ ".md")) ∧
    ({ defaultOptions with src := "/d/paper.md", out := "/d/final.pdf" } : Options).out =
        (if endsWithS "final" ".pdf" then pathResolve "/d" "final"
         else pathResolve "/d" ("final" ++ ".pdf")) :=
  ⟨(path_extension_resolution ["--src=paper", "--out=final"] "/d"
      { defaultOptions with src := "/d/paper.md", out := "/d/final.pdf" }
      (by decide)).1 "paper" (by decide),
   (path_extension_resolution ["--src=paper", "--out=final"] "/d"
      { defaultOptions with src := "/d/paper.md", out := "/d/final.pdf" }
      (by decide)).2 "final" (by decide)⟩

/-- C1 counterexample: with `--src=a.md.b` (no `--out`) the resolved source
is `/d/a.md.b.md`, but the derived output is `/d/a.pdf.b.md` — the FIRST
occurrence of `.md` was replaced — and not `/d/a.md.b.pdf`, the path the
claim (swap the extension at the end) predicts. -/
theorem default_out_not_extension_swap :
    parseOptions ["--src=a.md.b"] "/d" =
      .ok { defaultOptions with src := "/d/a.md.b.md", out := "/d/a.pdf.b.md" } ∧
    ("/d/a.pdf.b.md" : String) ≠ "/d/a.md.b.pdf" := by
  constructor
  · decide
  · decide

/-- C1 (amended): for every valid argument list omitting `--out`, the output
path equals the resolved source path with the FIRST occurrence of the
substring `.md` replaced by `.pdf` (JavaScript `replace` with a string
pattern), which coincides with swapping the final extension only when `.md`
does not occur earlier in the path. -/
theorem default_out_replaces_first_md (args : List String) (cwd : String) (o : Options)
    (h : parseOptions args cwd = .ok o)
    (hno : ∀ a ∈ args, argKey a ≠ "--out") :
    o.out = replaceFirst o.src ".md" ".pdf" := by
  rcases parse_ok_inv args cwd o h with ⟨-, -, rfl⟩
  have hany : args.any (fun a => decide (argKey a = "--out")) = false := by
    simp only [List.any_eq_false]
    intro a ha
    simpa using hno a ha
  have hnone := lastValue_none "--out" args hany
  have hout : (resultOpts cwd args defaultOptions).out = "" := by
    unfold resultOpts
    simp only [hnone]
    rfl
  rw [finalOptions_src]
  unfold finalOptions
  simp [hout]

/-- Witness for C1 (amended) at `--src=paper`, cwd `/d`. -/
theorem default_out_replaces_first_md_witness :
    ({ defaultOptions with src := "/d/paper.md", out := "/d/paper.pdf" } : Options).out =
      replaceFirst "/d/paper.md" ".md" ".pdf" :=
  default_out_replaces_first_md ["--src=paper"] "/d"
    { defaultOptions with src := "/d/paper.md", out := "/d/paper.pdf" }
    (by decide) (by decide)

/-- C3 counterexample: `--outputHTML=true` (a flag key with an appended
value) does NOT make resolution fail; the configuration is produced with the
flag set. -/
theorem flag_with_value_accepted :
    parseOptions ["--src=a", "--outputHTML=true"] "/d" =
      .ok { defaultOptions with src := "/d/a.md", out := "/d/a.pdf", outputHTML := true } := by
  decide

/-- C3 (amended): an argument whose key (the part before the first `=`) is a
flag key is accepted regardless of any appended value: the flag is set to
true and the value is ignored; no parameter error is raised for it. -/
theorem flag_key_ignores_value (cwd : String) (o : Options) (arg : String) :
    (argKey arg = "--outputHTML" → applyArg cwd o arg = .ok { o with outputHTML := true }) ∧
    (argKey arg = "--showTitle" → applyArg cwd o arg = .ok { o with showTitle := true }) := by
  constructor <;> intro h <;> simp [applyArg, h]

/-- Witness for C3 (amended): `--outputHTML=true` and `--showTitle=1` both
set their flags without error. -/
theorem flag_key_ignores_value_witness :
    applyArg "/d" defaultOptions "--outputHTML=true" =
      .ok { defaultOptions with outputHTML := true } ∧
    applyArg "/d" defaultOptions "--showTitle=1" =
      .ok { defaultOptions with showTitle := true } :=
  ⟨(flag_key_ignores_value "/d" defaultOptions "--outputHTML=true").1 (by decide),
   (flag_key_ignores_value "/d" defaultOptions "--showTitle=1").2 (by decide)⟩

theorem startsL_self (p r : List Char) : startsL p (p ++ r) = true := by
  induction p with
  | nil => rfl
  | cons a as ih => simp [startsL, ih]

theorem hasSub_self (p r : List Char) : hasSub p (p ++ r) = true := by
  cases p with
  | nil => cases r <;> simp [hasSub, startsL]
  | cons a as =>
      have h := startsL_self (a :: as) r
      simp only [hasSub, List.cons_append, Bool.or_eq_true]
      exact Or.inl h

theorem hasSub_append_left (pat x s : List Char) (h : hasSub pat s = true) :
    hasSub pat (x ++ s) = true := by
  induction x with
  | nil => simpa using h
  | cons c cs ih => simp [hasSub, ih]

theorem hasSub_mid (pre pat suf : List Char) : hasSub pat (pre ++ (pat ++ suf)) = true :=
  hasSub_append_left pat pre (pat ++ suf) (hasSub_self pat suf)

theorem toList_eq_data (s : String) : s.toList = s.data := rfl

theorem strData_append : ∀ (s t : String), (s ++ t).data = s.data ++ t.data
  | ⟨_⟩, ⟨_⟩ => rfl

/-- C9: the Page Composer is a pure function of the source path (for the
title), the rendered fragment, and the stylesheet text: two configurations
agreeing on the source path compose byte-identical documents, whatever their
other fields — no timestamps, identifiers, or randomness are embedded. -/
theorem compose_deterministic (o₁ o₂ : Options) (html css : String)
    (h : o₁.src = o₂.src) : composeWeb o₁ html css = composeWeb o₂ html css := by
  simp [composeWeb, h]

/-- Witness for C9: two configurations differing in flags and output path
but sharing a source path compose the same document. -/
theorem compose_deterministic_witness :
    composeWeb { defaultOptions with src := "/d/paper.md", showTitle := true } "<p>x</p>" "c" =
      composeWeb { defaultOptions with src := "/d/paper.md", out := "/z.pdf" } "<p>x</p>" "c" :=
  compose_deterministic
    { defaultOptions with src := "/d/paper.md", showTitle := true }
    { defaultOptions with src := "/d/paper.md", out := "/z.pdf" } "<p>x</p>" "c" rfl

/-- C4 counterexample: for the configuration with source `/d/paper.md` and
show-title enabled, the derived title is `paper`, yet the header template
string does not contain it — the template holds only the print engine's
`<span class="title">` placeholder. -/
theorem header_lacks_derived_title :
    deriveTitle "/d/paper.md" = "paper" ∧
    hasSub ("paper".toList)
      ((headerTemplate { defaultOptions with src := "/d/paper.md", showTitle := true }).toList)
      = false := by
  constructor
  · decide
  · decide

/-- C4 (amended): `showTitle=false` gives the header template `<div></div>`
(no visible content); `showTitle=true` gives a header template containing the
`<span class="title"></span>` placeholder that the print engine fills with
the document title; the derived title (filename with the first `.md`
occurrence removed) is embedded in the composed document's title element
rather than literally in the header template. -/
theorem header_shows_title_via_placeholder (o : Options) (html css : String) :
    (o.showTitle = false → headerTemplate o = "<div></div>") ∧
    (o.showTitle = true →
      hasSub ("<span class=\"title\"></span>".toList) ((headerTemplate o).toList) = true) ∧
    hasSub (("<title>" ++ deriveTitle o.src ++ "</title>").toList)
      ((composeWeb o html css).toList) = true := by
  refine ⟨fun h => by simp [headerTemplate, h], fun h => ?_, ?_⟩
  · simp only [headerTemplate, h, if_pos]
    decide
  · have hre : (composeWeb o html css).data =
        webHead.data ++ (("<title>" ++ deriveTitle o.src ++ "</title>").data ++
          (webMid1.data ++ (css.data ++ (webMid2.data ++ (html.data ++ webTail.data))))) := by
      simp [composeWeb, strData_append, List.append_assoc]
    rw [toList_eq_data, toList_eq_data, hre]
    exact hasSub_mid _ _ _

/-- Witness for C4 (amended): the defaults give the empty `<div></div>`
header and enabling the flag yields the placeholder-bearing header. -/
theorem header_shows_title_via_placeholder_witness :
    headerTemplate defaultOptions = "<div></div>" ∧
    hasSub ("<span class=\"title\"></span>".toList)
      ((headerTemplate { defaultOptions with showTitle := true }).toList) = true :=
  ⟨(header_shows_title_via_placeholder defaultOptions "" "").1 rfl,
   (header_shows_title_via_placeholder { defaultOptions with showTitle := true } "" "").2.1 rfl⟩

/-- C7: every invocation of the pipeline entry point terminates with exit
status 0 — success, parameter error, and unknown error alike — because the
`finally` block runs `process.exit(0)` unconditionally. -/
theorem exit_status_always_zero (args : List String) (cwd : String) (io : IOOracle) :
    (runMain args cwd io).exitCode = 0 := by
  unfold runMain
  cases parseOptions args cwd with
  | error e => rfl
  | ok o => cases hrt : (renderTrace o io).2 <;> simp [hrt]

/-- C2 at its failing input: with a valid configuration, when launch, page
creation, and content load succeed but pagination throws, the trace contains
the launch but never the close — the browser subprocess leaks, because
`renderMarkdown` has no `try`/`finally` around the browser scope. -/
theorem browser_leaked_on_pagination_failure :
    Ev.launch ∈ (renderTrace { defaultOptions with src := "/d/paper.md", out := "/d/paper.pdf" }
        ⟨true, true, true, true, true, true, true, false, true⟩).1 ∧
    Ev.close ∉ (renderTrace { defaultOptions with src := "/d/paper.md", out := "/d/paper.pdf" }
        ⟨true, true, true, true, true, true, true, false, true⟩).1 ∧
    (renderTrace { defaultOptions with src := "/d/paper.md", out := "/d/paper.pdf" }
        ⟨true, true, true, true, true, true, true, false, true⟩).2 = false := by
  decide

set_option maxHeartbeats 4000000 in
/-- C8: the intermediate HTML write happens strictly before any PDF-emission
event; it targets the source path with (the first) `.md` swapped for `.html`;
a write failure aborts the run before any emission event; with the flag off
no HTML write ever appears in the trace. -/
theorem html_write_precedes_pdf (o : Options) (io : IOOracle) :
    (o.outputHTML = false →
      (renderTrace o io).1.all (fun e => !isWriteHtml e) = true) ∧
    htmlBeforeEmission (renderTrace o io).1 = true ∧
    (∀ p, Ev.writeHtml p ∈ (renderTrace o io).1 → p = replaceFirst o.src ".md" ".html") ∧
    (o.outputHTML = true → io.readSrcOk = true → io.markedOk = true → io.readCssOk = true →
      io.writeHtmlOk = false →
      (renderTrace o io).1.all (fun e => !isEmission e) = true ∧
        (renderTrace o io).2 = false) := by
  refine ⟨?_, ?_, ?_, ?_⟩
  · intro ho
    unfold renderTrace traceAttempt
    rw [ho]
    repeat' split
    all_goals simp_all [isWriteHtml]
  · unfold htmlBeforeEmission renderTrace traceAttempt
    cases ho : o.outputHTML
    all_goals repeat' split
    all_goals simp_all [isEmission, isWriteHtml]
  · intro p
    unfold renderTrace traceAttempt
    cases ho : o.outputHTML
    all_goals repeat' split
    all_goals simp_all [isEmission, isWriteHtml]
  · intro ho hr hm hc hw
    unfold renderTrace traceAttempt
    rw [ho, hr, hm, hc, hw]
    simp [isEmission]

/-- Witness for C8: with the flag set and the HTML write failing, the trace
stops before any emission event and the run fails. -/
theorem html_write_precedes_pdf_witness :
    (renderTrace oHtmlSample ioWriteFailSample).1.all (fun e => !isEmission e) = true ∧
    (renderTrace oHtmlSample ioWriteFailSample).2 = false :=
  (html_write_precedes_pdf oHtmlSample ioWriteFailSample).2.2.2 rfl rfl rfl rfl rfl
